import Mathlib

/-!
Shallow embedding of the Trim Galore Latch workflow (`wf/__init__.py`).

The core of the program is `trim_reads_task`: it builds a command line
(`_cmd`) for the external `trim_galore` binary from its typed parameters,
runs the command with `subprocess.run` (whose result is discarded), and
returns a `LatchDir` pairing the fixed local staging directory with the
resolved remote destination.

Python values are embedded as follows: `str` as `String`, `int` as `Int`,
`float` as `ℚ` together with a decimal renderer modelling `str(float)` on
the decimal values the workflow uses, `Optional[T]` as `Option T`, and the
two `Enum` classes as inductive types with a `value` projection.  Python
truthiness (`if x:`) on an optional is "not `None` and nonzero / nonempty".
-/

namespace TrimGalore

/-- Decimal digits of `n` (most significant first), with structural fuel so
that the kernel can evaluate it; models the digit loop of Python `str(int)`. -/
def natStrAux : Nat → Nat → List Char
  | 0, _ => []
  | fuel+1, n =>
    if n < 10 then [Nat.digitChar n]
    else natStrAux fuel (n / 10) ++ [Nat.digitChar (n % 10)]

/-- Python `str` on a nonnegative integer. -/
def natStr (n : Nat) : String := String.mk (natStrAux (n + 1) n)

/-- Python `str` on an `int`: an optional leading minus sign, then digits. -/
def intStr (n : Int) : String :=
  if n < 0 then "-" ++ natStr n.natAbs else natStr n.natAbs

/-- Digits of the fractional expansion of `num / den` (fuelled). -/
def fracAux : Nat → Nat → Nat → List Char
  | 0, _, _ => []
  | fuel+1, num, den =>
    if num = 0 then []
    else Nat.digitChar (num * 10 / den) :: fracAux fuel (num * 10 % den) den

/-- Python `str` on a `float`, modelled on exact decimal rationals: sign,
integer part, a dot, then the fractional digits (`"0"` when the value is
integral), e.g. `str(0.01) = "0.01"`, `str(0.0) = "0.0"`. -/
def floatStr (q : ℚ) : String :=
  let na := q.num.natAbs
  let d := q.den
  (if q.num < 0 then "-" else "") ++ natStr (na / d) ++ "." ++
    (if na % d = 0 then "0" else String.mk (fracAux d (na % d) d))

/-- The rational `1/100`, i.e. the float literal `0.01` of the source
(given as an explicit fraction so that the kernel can evaluate it). -/
def q001 : ℚ := ⟨1, 100, by decide, Nat.coprime_one_left 100⟩

/-- The explicit fraction is the scientific literal `0.01`. -/
theorem q001_eq : q001 = (0.01 : ℚ) := by
  rw [q001, Rat.mk'_eq_divInt, Rat.divInt_eq_div]
  norm_num

/-- A whole number as a rational (kernel-evaluable). -/
def ratInt (n : Int) : ℚ := ⟨n, 1, one_ne_zero, Nat.coprime_one_right _⟩

/-- The `BaseQualityEncoding` enum of the source. -/
inductive BaseQualityEncoding
  | phred33
  | phred64
deriving DecidableEq, Repr

/-- The `.value` attribute of `BaseQualityEncoding` members. -/
def BaseQualityEncoding.value : BaseQualityEncoding → String
  | .phred33 => "--phred33"
  | .phred64 => "--phred64"

/-- The `AdapterSequence` enum of the source. -/
inductive AdapterSequence
  | auto
  | illumina
  | stranded_illumina
  | nextera
  | small_rna
deriving DecidableEq, Repr

/-- The `.value` attribute of `AdapterSequence` members. -/
def AdapterSequence.value : AdapterSequence → String
  | .auto => "auto"
  | .illumina => "--illumina"
  | .stranded_illumina => "--stranded_illumina"
  | .nextera => "--nextera"
  | .small_rna => "--small_rna"

/-- The parameters of `trim_reads_task`.  `input_forward` and
`input_reverse` stand for the `local_path` strings of the two input
`LatchFile`s; `output_directory` stands for the `remote_source` string of
the optional output `LatchDir`.  Defaults are the source's defaults. -/
structure ParameterSet where
  input_forward : String
  input_reverse : String
  base_out : Option String := none
  output_directory : Option String := none
  fastqc_args : Option String := none
  adapter : Option String := none
  adapter2 : Option String := none
  consider_already_trimmed : Option Int := none
  max_length : Option Int := none
  max_n : Option ℚ := none
  clip_R1 : Option Int := none
  clip_R2 : Option Int := none
  three_prime_clip_R1 : Option Int := none
  three_prime_clip_R2 : Option Int := none
  hardtrim5 : Option Int := none
  hardtrim3 : Option Int := none
  quality : Int := 20
  base_quality_encoding : BaseQualityEncoding := .phred33
  fastqc : Bool := true
  adapter_sequence : AdapterSequence := .auto
  stringency : Int := 1
  error_rate : ℚ := q001
  gzip_output_files : Bool := false
  length : Int := 20
  trim_n : Bool := false
  report_file : Bool := true
  polyA : Bool := false
  implicon : Bool := false
  retain_unpaired : Bool := true
  length_1 : Int := 35
  length_2 : Int := 35
deriving DecidableEq, Repr

/-- The fixed local staging directory `local_dir = "trim_galore_out"`. -/
def local_dir : String := "trim_galore_out"

/-- The external tool's executable path (line 311). -/
def tool : String := "./TrimGalore-0.6.10/trim_galore"

/-- The `if v: _cmd.extend([flag, v])` pattern on an `Optional[str]`:
emitted only when the value is present and nonempty. -/
def optStrArg (flag : String) (v : Option String) : List String :=
  match v with
  | some s => if s = "" then [] else [flag, s]
  | none => []

/-- The `if v: _cmd.extend([flag, str(v)])` pattern on an `Optional[int]`:
emitted only when the value is present and nonzero. -/
def optIntArg (flag : String) (v : Option Int) : List String :=
  match v with
  | some n => if n = 0 then [] else [flag, intStr n]
  | none => []

/-- The `if v: _cmd.extend([flag, str(v)])` pattern on an `Optional[float]`:
emitted only when the value is present and nonzero. -/
def optFloatArg (flag : String) (v : Option ℚ) : List String :=
  match v with
  | some q => if q = 0 then [] else [flag, floatStr q]
  | none => []

/-- The `if b: _cmd.append(flag)` pattern on a `bool`. -/
def boolArg (flag : String) (b : Bool) : List String :=
  if b then [flag] else []

/-- Lines 376-377: `if fastqc_args: _cmd.extend(["--fastqc_args",
f'"..."'])` — the value is wrapped in literal double quotes. -/
def fastqcArgsSegment (v : Option String) : List String :=
  match v with
  | some s => if s = "" then [] else ["--fastqc_args", "\"" ++ s ++ "\""]
  | none => []

/-- Lines 355-356: the adapter-family flag, emitted only when the enum
member is not the `auto` sentinel. -/
def adapterSegment (a : AdapterSequence) : List String :=
  if a ≠ AdapterSequence.auto then [a.value] else []

/-- Lines 358-359: `if error_rate: _cmd.extend(["-e", str(error_rate)])`. -/
def errorRateSegment (q : ℚ) : List String :=
  if q = 0 then [] else ["-e", floatStr q]

/-- Lines 310-317: the initial `_cmd` list. -/
def headSegment (fwd rev : String) : List String :=
  [tool, fwd, rev, "--paired", "--output_dir", local_dir]

/-- Lines 322-325: `--gzip` when requested, else `--dont_gzip`. -/
def gzipSegment (b : Bool) : List String :=
  if b then ["--gzip"] else ["--dont_gzip"]

/-- Lines 331-343: the always-emitted quality block. -/
def qualityBlock (q : Int) (e : BaseQualityEncoding) (l l1 l2 : Int) : List String :=
  ["--quality", intStr q, e.value, "--length", intStr l,
   "--length_1", intStr l1, "--length_2", intStr l2]

/-- Line 361: `--stringency` with its value, always emitted. -/
def stringencySegment (n : Int) : List String :=
  ["--stringency", intStr n]

/-- The Command Builder: the construction of `_cmd` in `trim_reads_task`
(lines 310-405), segment by segment in source order. -/
def build (p : ParameterSet) : List String :=
  headSegment p.input_forward p.input_reverse
  ++ optStrArg "--basename" p.base_out
  ++ gzipSegment p.gzip_output_files
  ++ boolArg "--retain_unpaired" p.retain_unpaired
  ++ qualityBlock p.quality p.base_quality_encoding p.length p.length_1 p.length_2
  ++ optIntArg "--max_length" p.max_length
  ++ optFloatArg "--max_n" p.max_n
  ++ boolArg "--trim-n" p.trim_n
  ++ adapterSegment p.adapter_sequence
  ++ errorRateSegment p.error_rate
  ++ stringencySegment p.stringency
  ++ optStrArg "--adapter" p.adapter
  ++ optStrArg "--adapter2" p.adapter2
  ++ optIntArg "--consider_already_trimmed" p.consider_already_trimmed
  ++ boolArg "--fastqc" p.fastqc
  ++ fastqcArgsSegment p.fastqc_args
  ++ boolArg "--no_report_file" (!p.report_file)
  ++ optIntArg "--hardtrim5" p.hardtrim5
  ++ optIntArg "--hardtrim3" p.hardtrim3
  ++ optIntArg "--clip_R1" p.clip_R1
  ++ optIntArg "--clip_R2" p.clip_R2
  ++ boolArg "--polyA" p.polyA
  ++ boolArg "--implicon" p.implicon
  ++ optIntArg "--three_prime_clip_R1" p.three_prime_clip_R1
  ++ optIntArg "--three_prime_clip_R2" p.three_prime_clip_R2

/-- `_fmt_dir` (lines 266-269): strips a single trailing `/`.  Python
`bucket_path[-1]` raises `IndexError` on the empty string, modelled as
`none`. -/
def fmtDir (bucket_path : String) : Option String :=
  match bucket_path.data.getLast? with
  | none => none
  | some c => if c = '/' then some (String.mk bucket_path.data.dropLast) else some bucket_path

/-- The fixed default destination string (line 412). -/
def defaultDest : String := "latch:///Trim Galore Output/"

/-- Lines 409-412: the destination is the normalized override when one was
supplied, otherwise the fixed default string. -/
def resolveDest (output_directory : Option String) : Option String :=
  match output_directory with
  | some s => fmtDir s
  | none => some defaultDest

/-- The returned `LatchDir(local_dir, latch_out_location)` (line 414). -/
structure OutputDescriptor where
  localPath : String
  dest : String
deriving DecidableEq, Repr

/-- The Execution & Staging Driver of `trim_reads_task` (lines 407-414):
the subprocess result is discarded, so the child's exit status enters the
model as an explicit argument that the definition never inspects; the task
then resolves the destination and wraps the staging directory. -/
def trim_reads_task (p : ParameterSet) (_exitCode : Int) : List String × Option OutputDescriptor :=
  (build p,
    match resolveDest p.output_directory with
    | some d => some ⟨local_dir, d⟩
    | none => none)

/-! ### Helper lemmas: rendered numbers are never flag tokens

Every flag token of the command line starts with `'-'` followed by a
non-digit character, while `intStr` / `floatStr` produce a digit first, or
a minus sign followed by a digit.  So a rendered numeric value can never
collide with a flag token. -/

theorem digitChar_isDigit {n : Nat} (h : n < 10) : (Nat.digitChar n).isDigit = true := by
  interval_cases n <;> decide

theorem natStrAux_digits (fuel : Nat) :
    ∀ n c, c ∈ natStrAux fuel n → c.isDigit = true := by
  induction fuel with
  | zero => intro n c hc; simp [natStrAux] at hc
  | succ fuel ih =>
    intro n c hc
    by_cases h : n < 10
    · rw [natStrAux, if_pos h] at hc
      simp only [List.mem_singleton] at hc
      subst hc
      exact digitChar_isDigit h
    · rw [natStrAux, if_neg h] at hc
      rcases List.mem_append.mp hc with h' | h'
      · exact ih _ _ h'
      · simp only [List.mem_singleton] at h'
        subst h'
        exact digitChar_isDigit (Nat.mod_lt _ (by omega))

theorem natStrAux_ne_nil (fuel n : Nat) : natStrAux (fuel + 1) n ≠ [] := by
  rw [natStrAux]
  by_cases h : n < 10
  · rw [if_pos h]; simp
  · rw [if_neg h]; simp

/-- The decimal rendering of a natural number starts with a digit. -/
theorem natStr_head (n : Nat) :
    ∃ c l, (natStr n).data = c :: l ∧ c.isDigit = true := by
  have hne := natStrAux_ne_nil n n
  rcases h : natStrAux (n + 1) n with _ | ⟨c, l⟩
  · exact absurd h hne
  · exact ⟨c, l, h ▸ rfl, natStrAux_digits (n + 1) n c (h ▸ List.mem_cons_self c l)⟩

/-- A flag token: a string starting with `'-'` whose second character is
not a digit.  Every literal flag of the command line has this shape. -/
def FlagShaped (t : String) : Prop :=
  ∃ c r, t.data = '-' :: c :: r ∧ c.isDigit = false

/-- `str` of an `int` never equals a flag token. -/
theorem intStr_ne_flag (n : Int) (t : String) (h : FlagShaped t) : intStr n ≠ t := by
  obtain ⟨c, r, ht, hc⟩ := h
  intro h
  have hdata : (intStr n).data = '-' :: c :: r := by rw [h, ht]
  obtain ⟨c0, l0, h0, hd0⟩ := natStr_head n.natAbs
  rw [intStr] at hdata
  by_cases hn : n < 0
  · rw [if_pos hn, String.data_append, h0] at hdata
    have hdata' : '-' :: c0 :: l0 = '-' :: c :: r := hdata
    injection hdata' with _ h2
    injection h2 with hcc _
    rw [hcc] at hd0
    rw [hd0] at hc
    exact Bool.noConfusion hc
  · rw [if_neg hn, h0] at hdata
    injection hdata with hcc _
    rw [hcc] at hd0
    exact absurd hd0 (by decide)

/-- `str` of a `float` never equals a flag token. -/
theorem floatStr_ne_flag (q : ℚ) (t : String) (h : FlagShaped t) : floatStr q ≠ t := by
  obtain ⟨c, r, ht, hc⟩ := h
  intro h
  have hdata : (floatStr q).data = '-' :: c :: r := by rw [h, ht]
  simp only [floatStr] at hdata
  obtain ⟨c0, l0, h0, hd0⟩ := natStr_head (q.num.natAbs / q.den)
  by_cases hn : q.num < 0
  · rw [if_pos hn, String.data_append, String.data_append, String.data_append, h0] at hdata
    have hdata' : ('-' :: c0 :: _ : List Char) = '-' :: c :: r := hdata
    injection hdata' with _ h2
    injection h2 with hcc _
    rw [hcc] at hd0
    rw [hd0] at hc
    exact Bool.noConfusion hc
  · rw [if_neg hn, String.data_append, String.data_append, String.data_append, h0] at hdata
    have hdata' : (c0 :: _ : List Char) = '-' :: c :: r := hdata
    injection hdata' with hcc _
    rw [hcc] at hd0
    exact absurd hd0 (by decide)

/-- The quote-wrapped `--fastqc_args` value never equals a flag token. -/
theorem quoted_ne_flag (s t : String) (h : FlagShaped t) : "\"" ++ s ++ "\"" ≠ t := by
  obtain ⟨c, r, ht, _⟩ := h
  intro h
  have hdata : ("\"" ++ s ++ "\"").data = '-' :: c :: r := by rw [h, ht]
  rw [String.data_append, String.data_append] at hdata
  have hdata' : '\"' :: (s.data ++ ['\"']) = '-' :: c :: r := hdata
  injection hdata' with h1 _
  exact absurd h1 (by decide)

/-! ### Per-segment non-membership lemmas -/

theorem not_mem_headSegment (t fwd rev : String) (h1 : t ≠ tool) (h2 : t ≠ fwd)
    (h3 : t ≠ rev) (h4 : t ≠ "--paired") (h5 : t ≠ "--output_dir")
    (h6 : t ≠ local_dir) : t ∉ headSegment fwd rev := by
  simp [headSegment, h1, h2, h3, h4, h5, h6]

theorem not_mem_optStrArg (t flag : String) (v : Option String)
    (h1 : t ≠ flag) (h2 : ∀ s, v = some s → t ≠ s) : t ∉ optStrArg flag v := by
  cases v with
  | none => simp [optStrArg]
  | some s =>
    simp only [optStrArg]
    split
    · simp
    · simp [h1, h2 s rfl]

theorem not_mem_optIntArg (t flag : String) (v : Option Int)
    (h1 : t ≠ flag) (h2 : FlagShaped t) : t ∉ optIntArg flag v := by
  cases v with
  | none => simp [optIntArg]
  | some n =>
    simp only [optIntArg]
    split
    · simp
    · simp [h1, (intStr_ne_flag n t h2).symm]

theorem not_mem_optFloatArg (t flag : String) (v : Option ℚ)
    (h1 : t ≠ flag) (h2 : FlagShaped t) : t ∉ optFloatArg flag v := by
  cases v with
  | none => simp [optFloatArg]
  | some q =>
    simp only [optFloatArg]
    split
    · simp
    · simp [h1, (floatStr_ne_flag q t h2).symm]

theorem not_mem_boolArg (t flag : String) (b : Bool) (h1 : t ≠ flag) :
    t ∉ boolArg flag b := by
  cases b <;> simp [boolArg, h1]

theorem not_mem_gzipSegment (t : String) (b : Bool) (h1 : t ≠ "--gzip")
    (h2 : t ≠ "--dont_gzip") : t ∉ gzipSegment b := by
  cases b <;> simp [gzipSegment, h1, h2]

theorem not_mem_qualityBlock (t : String) (q l1 l2 l3 : Int) (e : BaseQualityEncoding)
    (h1 : t ≠ "--quality") (h2 : t ≠ "--length") (h3 : t ≠ "--length_1")
    (h4 : t ≠ "--length_2") (h5 : t ≠ "--phred33") (h6 : t ≠ "--phred64")
    (hs : FlagShaped t) : t ∉ qualityBlock q e l1 l2 l3 := by
  cases e <;>
    simp [qualityBlock, BaseQualityEncoding.value, h1, h2, h3, h4, h5, h6,
      (intStr_ne_flag q t hs).symm, (intStr_ne_flag l1 t hs).symm,
      (intStr_ne_flag l2 t hs).symm, (intStr_ne_flag l3 t hs).symm]

theorem not_mem_adapterSegment (t : String) (a : AdapterSequence)
    (h1 : t ≠ "--illumina") (h2 : t ≠ "--stranded_illumina")
    (h3 : t ≠ "--nextera") (h4 : t ≠ "--small_rna") : t ∉ adapterSegment a := by
  cases a <;> simp [adapterSegment, AdapterSequence.value, h1, h2, h3, h4]

theorem not_mem_errorRateSegment (t : String) (q : ℚ) (h1 : t ≠ "-e")
    (h2 : FlagShaped t) : t ∉ errorRateSegment q := by
  simp only [errorRateSegment]
  split
  · simp
  · simp [h1, (floatStr_ne_flag q t h2).symm]

theorem not_mem_stringencySegment (t : String) (n : Int) (h1 : t ≠ "--stringency")
    (h2 : FlagShaped t) : t ∉ stringencySegment n := by
  simp [stringencySegment, h1, (intStr_ne_flag n t h2).symm]

theorem not_mem_fastqcArgsSegment (t : String) (v : Option String)
    (h1 : t ≠ "--fastqc_args") (h2 : FlagShaped t) : t ∉ fastqcArgsSegment v := by
  cases v with
  | none => simp [fastqcArgsSegment]
  | some s =>
    simp only [fastqcArgsSegment]
    split
    · simp
    · simp [h1, (quoted_ne_flag s t h2).symm]

/-! ### Count decomposition of the built command -/

/-- The count of any token in the built command is the sum of its counts in
the segments, in source order. -/
theorem build_count (p : ParameterSet) (t : String) :
    (build p).count t =
      (headSegment p.input_forward p.input_reverse).count t
      + (optStrArg "--basename" p.base_out).count t
      + (gzipSegment p.gzip_output_files).count t
      + (boolArg "--retain_unpaired" p.retain_unpaired).count t
      + (qualityBlock p.quality p.base_quality_encoding p.length p.length_1 p.length_2).count t
      + (optIntArg "--max_length" p.max_length).count t
      + (optFloatArg "--max_n" p.max_n).count t
      + (boolArg "--trim-n" p.trim_n).count t
      + (adapterSegment p.adapter_sequence).count t
      + (errorRateSegment p.error_rate).count t
      + (stringencySegment p.stringency).count t
      + (optStrArg "--adapter" p.adapter).count t
      + (optStrArg "--adapter2" p.adapter2).count t
      + (optIntArg "--consider_already_trimmed" p.consider_already_trimmed).count t
      + (boolArg "--fastqc" p.fastqc).count t
      + (fastqcArgsSegment p.fastqc_args).count t
      + (boolArg "--no_report_file" (!p.report_file)).count t
      + (optIntArg "--hardtrim5" p.hardtrim5).count t
      + (optIntArg "--hardtrim3" p.hardtrim3).count t
      + (optIntArg "--clip_R1" p.clip_R1).count t
      + (optIntArg "--clip_R2" p.clip_R2).count t
      + (boolArg "--polyA" p.polyA).count t
      + (boolArg "--implicon" p.implicon).count t
      + (optIntArg "--three_prime_clip_R1" p.three_prime_clip_R1).count t
      + (optIntArg "--three_prime_clip_R2" p.three_prime_clip_R2).count t := by
  simp only [build, List.count_append]

/-- The constant flag tokens of the command line that no claim queries. -/
def fixedFlags : List String :=
  [tool, "--paired", "--output_dir", local_dir, "--basename", "--retain_unpaired",
   "--quality", "--length", "--length_1", "--length_2", "--phred33", "--phred64",
   "--max_length", "--trim-n", "--stringency", "--adapter", "--adapter2",
   "--consider_already_trimmed", "--fastqc", "--fastqc_args", "--no_report_file",
   "--hardtrim5", "--hardtrim3", "--clip_R2", "--polyA", "--implicon",
   "--three_prime_clip_R1", "--three_prime_clip_R2"]

/-- For a flag-shaped token that differs from all constant flags and is not
injected through one of the five verbatim string fields, only the gzip,
max-n, adapter-family, error-rate, and clip-R1 segments can contribute
occurrences. -/
theorem count_build_restVar (p : ParameterSet) (t : String) (hs : FlagShaped t)
    (ht : ∀ x ∈ fixedFlags, t ≠ x)
    (hf : t ≠ p.input_forward) (hr : t ≠ p.input_reverse)
    (hb : ∀ s, p.base_out = some s → t ≠ s)
    (ha : ∀ s, p.adapter = some s → t ≠ s)
    (ha2 : ∀ s, p.adapter2 = some s → t ≠ s) :
    (build p).count t =
      (gzipSegment p.gzip_output_files).count t
      + (optFloatArg "--max_n" p.max_n).count t
      + (adapterSegment p.adapter_sequence).count t
      + (errorRateSegment p.error_rate).count t
      + (optIntArg "--clip_R1" p.clip_R1).count t := by
  rw [build_count,
    List.count_eq_zero_of_not_mem (not_mem_headSegment t _ _ (ht _ (by decide)) hf hr
      (ht _ (by decide)) (ht _ (by decide)) (ht _ (by decide))),
    List.count_eq_zero_of_not_mem (not_mem_optStrArg t "--basename" _ (ht _ (by decide)) hb),
    List.count_eq_zero_of_not_mem (not_mem_boolArg t "--retain_unpaired" _ (ht _ (by decide))),
    List.count_eq_zero_of_not_mem (not_mem_qualityBlock t _ _ _ _ _ (ht _ (by decide))
      (ht _ (by decide)) (ht _ (by decide)) (ht _ (by decide)) (ht _ (by decide))
      (ht _ (by decide)) hs),
    List.count_eq_zero_of_not_mem (not_mem_optIntArg t "--max_length" _ (ht _ (by decide)) hs),
    List.count_eq_zero_of_not_mem (not_mem_boolArg t "--trim-n" _ (ht _ (by decide))),
    List.count_eq_zero_of_not_mem (not_mem_stringencySegment t _ (ht _ (by decide)) hs),
    List.count_eq_zero_of_not_mem (not_mem_optStrArg t "--adapter" _ (ht _ (by decide)) ha),
    List.count_eq_zero_of_not_mem (not_mem_optStrArg t "--adapter2" _ (ht _ (by decide)) ha2),
    List.count_eq_zero_of_not_mem
      (not_mem_optIntArg t "--consider_already_trimmed" _ (ht _ (by decide)) hs),
    List.count_eq_zero_of_not_mem (not_mem_boolArg t "--fastqc" _ (ht _ (by decide))),
    List.count_eq_zero_of_not_mem (not_mem_fastqcArgsSegment t _ (ht _ (by decide)) hs),
    List.count_eq_zero_of_not_mem (not_mem_boolArg t "--no_report_file" _ (ht _ (by decide))),
    List.count_eq_zero_of_not_mem (not_mem_optIntArg t "--hardtrim5" _ (ht _ (by decide)) hs),
    List.count_eq_zero_of_not_mem (not_mem_optIntArg t "--hardtrim3" _ (ht _ (by decide)) hs),
    List.count_eq_zero_of_not_mem (not_mem_optIntArg t "--clip_R2" _ (ht _ (by decide)) hs),
    List.count_eq_zero_of_not_mem (not_mem_boolArg t "--polyA" _ (ht _ (by decide))),
    List.count_eq_zero_of_not_mem (not_mem_boolArg t "--implicon" _ (ht _ (by decide))),
    List.count_eq_zero_of_not_mem
      (not_mem_optIntArg t "--three_prime_clip_R1" _ (ht _ (by decide)) hs),
    List.count_eq_zero_of_not_mem
      (not_mem_optIntArg t "--three_prime_clip_R2" _ (ht _ (by decide)) hs)]
  omega

/-- Normalization is total on nonempty strings: `_fmt_dir` returns a value
whenever its argument is nonempty. -/
theorem fmtDir_isSome {s : String} (h : s ≠ "") : ∃ d, fmtDir s = some d := by
  cases hl : s.data.getLast? with
  | none => exact absurd (String.ext (List.getLast?_eq_none_iff.mp hl)) h
  | some c =>
    by_cases hc : c = '/'
    · exact ⟨String.mk s.data.dropLast, by simp [fmtDir, hl, hc]⟩
    · exact ⟨s, by simp [fmtDir, hl, hc]⟩

/-- The adapter-family segment contributes one occurrence of exactly the
selected member's literal token, and none of any other token. -/
theorem count_adapterSegment (a : AdapterSequence) (t : String) (hne : t ≠ "auto") :
    (adapterSegment a).count t = if a.value = t then 1 else 0 := by
  cases a <;>
    simp [adapterSegment, AdapterSequence.value, List.count_singleton', Ne.symm hne]

/-- The four literal adapter-family flag tokens. -/
def familyTokens : List String :=
  ["--illumina", "--stranded_illumina", "--nextera", "--small_rna"]

/-- An all-defaults ParameterSet over two concrete input files. -/
def p0 : ParameterSet := { input_forward := "fwd.fq", input_reverse := "rev.fq" }

/-- A ParameterSet with several optional fields set, used to instantiate
universally quantified theorems at a concrete input. -/
def pw : ParameterSet :=
  { input_forward := "in1.fastq", input_reverse := "in2.fastq",
    base_out := some "sample", adapter := some "AGATCGGAAGAGC",
    adapter2 := some "CTGTCTCTTATA", gzip_output_files := true,
    adapter_sequence := .nextera, max_n := some (ratInt 2),
    clip_R1 := some 5 }

/-! ## The claims -/

/-- C1, counterexample: at an all-defaults ParameterSet the built list is
not the list the claim gives — the code additionally emits `-e 0.01`
(the `error_rate` default is truthy) and `--fastqc` (`fastqc` defaults to
true). -/
theorem c1_scenario1_counterexample :
    build p0 ≠
      ["./TrimGalore-0.6.10/trim_galore", "fwd.fq", "rev.fq", "--paired",
       "--output_dir", "trim_galore_out", "--dont_gzip", "--retain_unpaired",
       "--quality", "20", "--phred33", "--length", "20", "--length_1", "35",
       "--length_2", "35", "--stringency", "1"] := by decide

/-- C1, amended: with only the two required input files set and every other
field at its default, the builder produces exactly `[tool, fwd, rev,
--paired, --output_dir, trim_galore_out, --dont_gzip, --retain_unpaired,
--quality, 20, --phred33, --length, 20, --length_1, 35, --length_2, 35,
-e, 0.01, --stringency, 1, --fastqc]` and nothing else. -/
theorem c1_scenario1_amended (fwd rev : String) :
    build { input_forward := fwd, input_reverse := rev } =
      ["./TrimGalore-0.6.10/trim_galore", fwd, rev, "--paired", "--output_dir",
       "trim_galore_out", "--dont_gzip", "--retain_unpaired", "--quality", "20",
       "--phred33", "--length", "20", "--length_1", "35", "--length_2", "35",
       "-e", "0.01", "--stringency", "1", "--fastqc"] := by
  have e1 : intStr 20 = "20" := by decide
  have e2 : intStr 35 = "35" := by decide
  have e3 : intStr 1 = "1" := by decide
  have e4 : floatStr q001 = "0.01" := by decide
  have e5 : q001 ≠ 0 := by decide
  simp [build, headSegment, optStrArg, gzipSegment, boolArg, qualityBlock,
    optIntArg, optFloatArg, adapterSegment, errorRateSegment, stringencySegment,
    fastqcArgsSegment, local_dir, tool, e1, e2, e3, e4, e5,
    BaseQualityEncoding.value, AdapterSequence.value]

/-- C1, witness: the amended default command line at two concrete files. -/
theorem c1_scenario1_amended_witness :
    build { input_forward := "a.fq", input_reverse := "b.fq" } =
      ["./TrimGalore-0.6.10/trim_galore", "a.fq", "b.fq", "--paired", "--output_dir",
       "trim_galore_out", "--dont_gzip", "--retain_unpaired", "--quality", "20",
       "--phred33", "--length", "20", "--length_1", "35", "--length_2", "35",
       "-e", "0.01", "--stringency", "1", "--fastqc"] :=
  c1_scenario1_amended "a.fq" "b.fq"

/-- C6: an override ending in a single trailing `/` has exactly that
separator stripped; an override whose last character is not `/` is returned
unchanged (the source indexes `bucket_path[-1]`, so this is for nonempty
strings); with no override the fixed default destination string is used. -/
theorem c6_dest_resolution :
    fmtDir "s3://bucket/path/" = some "s3://bucket/path" ∧
    (∀ s : String, s ≠ "" → s.data.getLast? ≠ some '/' → fmtDir s = some s) ∧
    resolveDest none = some defaultDest := by
  refine ⟨by decide, ?_, rfl⟩
  intro s hne hlast
  cases hl : s.data.getLast? with
  | none => exact absurd (String.ext (List.getLast?_eq_none_iff.mp hl)) hne
  | some c =>
    have hc : c ≠ '/' := fun h => hlast (h ▸ hl)
    simp [fmtDir, hl, hc]

/-- C6, witness: a concrete override with no trailing separator is
returned unchanged. -/
theorem c6_dest_resolution_witness :
    fmtDir "s3://bucket/path" = some "s3://bucket/path" :=
  c6_dest_resolution.2.1 "s3://bucket/path" (by decide) (by decide)

/-- C7: the Command Builder is deterministic — identical ParameterSets
produce identical argument lists. -/
theorem c7_build_deterministic (p₁ p₂ : ParameterSet) (h : p₁ = p₂) :
    build p₁ = build p₂ := by rw [h]

/-- C7, witness: determinism at a concrete ParameterSet. -/
theorem c7_build_deterministic_witness : build p0 = build p0 :=
  c7_build_deterministic p0 p0 rfl

/-- C9: the string optionals `base_out`, `adapter`, `adapter2` and
`fastqc_args` set to the empty string behave exactly like absent — the
built command is identical to the one with the field unset, so no flag is
emitted for them. -/
theorem c9_empty_string_like_absent (p : ParameterSet) :
    build { p with base_out := some "" } = build { p with base_out := none } ∧
    build { p with adapter := some "" } = build { p with adapter := none } ∧
    build { p with adapter2 := some "" } = build { p with adapter2 := none } ∧
    build { p with fastqc_args := some "" } = build { p with fastqc_args := none } := by
  refine ⟨?_, ?_, ?_, ?_⟩ <;> simp [build, optStrArg, fastqcArgsSegment]

/-- C9, witness: the empty-string/absent equivalences at a concrete
ParameterSet. -/
theorem c9_empty_string_like_absent_witness :
    build { p0 with base_out := some "" } = build { p0 with base_out := none } ∧
    build { p0 with adapter := some "" } = build { p0 with adapter := none } ∧
    build { p0 with adapter2 := some "" } = build { p0 with adapter2 := none } ∧
    build { p0 with fastqc_args := some "" } = build { p0 with fastqc_args := none } :=
  c9_empty_string_like_absent p0

/-- C10: with no override the destination is the default string verbatim,
trailing `/` included — it is not passed through the normalizer, which
would have stripped the separator. -/
theorem c10_default_dest_verbatim :
    resolveDest none = some "latch:///Trim Galore Output/" ∧
    fmtDir "latch:///Trim Galore Output/" ≠ some "latch:///Trim Galore Output/" := by
  decide

/-- C8: the driver never inspects the child's exit status — for any two
exit codes the result is identical, and it always resolves the destination
and returns the descriptor pairing the fixed staging directory with it
(the override, when present, is a nonempty string, since Python
`bucket_path[-1]` presupposes that). -/
theorem c8_exit_code_ignored (p : ParameterSet) (c c' : Int)
    (h : ∀ s, p.output_directory = some s → s ≠ "") :
    trim_reads_task p c = trim_reads_task p c' ∧
    ∃ d, resolveDest p.output_directory = some d ∧
      trim_reads_task p c = (build p, some ⟨local_dir, d⟩) := by
  refine ⟨rfl, ?_⟩
  cases ho : p.output_directory with
  | none =>
    exact ⟨defaultDest, by simp [resolveDest, ho],
      by simp [trim_reads_task, resolveDest, ho]⟩
  | some s =>
    obtain ⟨d, hd⟩ := fmtDir_isSome (h s ho)
    exact ⟨d, by simp [resolveDest, ho, hd],
      by simp [trim_reads_task, resolveDest, ho, hd]⟩

/-- C8, witness: two different exit codes at a concrete ParameterSet give
the same descriptor. -/
theorem c8_exit_code_ignored_witness :
    trim_reads_task p0 0 = trim_reads_task p0 1 ∧
    ∃ d, resolveDest p0.output_directory = some d ∧
      trim_reads_task p0 0 = (build p0, some ⟨local_dir, d⟩) :=
  c8_exit_code_ignored p0 0 1 (fun _ hs => Option.noConfusion hs)

/-- C2: for every ParameterSet whose free-form string fields do not
themselves spell one of the two gzip-state tokens, the built list contains
exactly one of `--gzip` / `--dont_gzip` — `--gzip` exactly once and
`--dont_gzip` never when `gzip_output_files` is true, the other way round
otherwise; never both, never neither. -/
theorem c2_gzip_exclusive (p : ParameterSet)
    (hf : p.input_forward ∉ (["--gzip", "--dont_gzip"] : List String))
    (hr : p.input_reverse ∉ (["--gzip", "--dont_gzip"] : List String))
    (hb : ∀ s, p.base_out = some s → s ∉ (["--gzip", "--dont_gzip"] : List String))
    (ha : ∀ s, p.adapter = some s → s ∉ (["--gzip", "--dont_gzip"] : List String))
    (ha2 : ∀ s, p.adapter2 = some s → s ∉ (["--gzip", "--dont_gzip"] : List String)) :
    (build p).count "--gzip" = (if p.gzip_output_files then 1 else 0) ∧
    (build p).count "--dont_gzip" = (if p.gzip_output_files then 0 else 1) := by
  have fsg : FlagShaped "--gzip" := ⟨'-', ['g', 'z', 'i', 'p'], rfl, rfl⟩
  have fsd : FlagShaped "--dont_gzip" :=
    ⟨'-', ['d', 'o', 'n', 't', '_', 'g', 'z', 'i', 'p'], rfl, rfl⟩
  have hga := count_build_restVar p "--gzip" fsg (by decide)
    (fun h => hf (by rw [← h]; decide)) (fun h => hr (by rw [← h]; decide))
    (fun s hs h => hb s hs (by rw [← h]; decide))
    (fun s hs h => ha s hs (by rw [← h]; decide))
    (fun s hs h => ha2 s hs (by rw [← h]; decide))
  have hgd := count_build_restVar p "--dont_gzip" fsd (by decide)
    (fun h => hf (by rw [← h]; decide)) (fun h => hr (by rw [← h]; decide))
    (fun s hs h => hb s hs (by rw [← h]; decide))
    (fun s hs h => ha s hs (by rw [← h]; decide))
    (fun s hs h => ha2 s hs (by rw [← h]; decide))
  rw [hga, hgd,
    List.count_eq_zero_of_not_mem (not_mem_optFloatArg "--gzip" "--max_n" _ (by decide) fsg),
    List.count_eq_zero_of_not_mem
      (not_mem_adapterSegment "--gzip" _ (by decide) (by decide) (by decide) (by decide)),
    List.count_eq_zero_of_not_mem (not_mem_errorRateSegment "--gzip" _ (by decide) fsg),
    List.count_eq_zero_of_not_mem (not_mem_optIntArg "--gzip" "--clip_R1" _ (by decide) fsg),
    List.count_eq_zero_of_not_mem (not_mem_optFloatArg "--dont_gzip" "--max_n" _ (by decide) fsd),
    List.count_eq_zero_of_not_mem
      (not_mem_adapterSegment "--dont_gzip" _ (by decide) (by decide) (by decide) (by decide)),
    List.count_eq_zero_of_not_mem (not_mem_errorRateSegment "--dont_gzip" _ (by decide) fsd),
    List.count_eq_zero_of_not_mem (not_mem_optIntArg "--dont_gzip" "--clip_R1" _ (by decide) fsd)]
  cases p.gzip_output_files <;> simp [gzipSegment]

/-- C2, witness: gzip exclusivity at a concrete ParameterSet requesting
gzip output. -/
theorem c2_gzip_exclusive_witness :
    (build pw).count "--gzip" = (if pw.gzip_output_files then 1 else 0) ∧
    (build pw).count "--dont_gzip" = (if pw.gzip_output_files then 0 else 1) :=
  c2_gzip_exclusive pw (by decide) (by decide)
    (fun s hs => by simp [pw] at hs; subst hs; decide)
    (fun s hs => by simp [pw] at hs; subst hs; decide)
    (fun s hs => by simp [pw] at hs; subst hs; decide)

/-- C3: for every ParameterSet whose free-form string fields do not spell
an adapter-family token, each family token occurs in the built list
exactly once if it is the selected member's literal value, and never
otherwise — so with the `auto` sentinel (whose `value` is `"auto"`, not a
flag) no family token appears at all, and with any of the four other
members exactly its literal token appears exactly once. -/
theorem c3_adapter_family (p : ParameterSet)
    (hf : p.input_forward ∉ familyTokens) (hr : p.input_reverse ∉ familyTokens)
    (hb : ∀ s, p.base_out = some s → s ∉ familyTokens)
    (ha : ∀ s, p.adapter = some s → s ∉ familyTokens)
    (ha2 : ∀ s, p.adapter2 = some s → s ∉ familyTokens) :
    ∀ t ∈ familyTokens,
      (build p).count t = if p.adapter_sequence.value = t then 1 else 0 := by
  intro t htm
  simp only [familyTokens, List.mem_cons, List.mem_singleton, List.not_mem_nil,
    or_false] at htm
  rcases htm with h | h | h | h <;> subst h <;>
    rw [count_build_restVar p _ ⟨'-', _, rfl, rfl⟩ (by decide)
        (fun h => hf (by rw [← h]; decide)) (fun h => hr (by rw [← h]; decide))
        (fun s hs h => hb s hs (by rw [← h]; decide))
        (fun s hs h => ha s hs (by rw [← h]; decide))
        (fun s hs h => ha2 s hs (by rw [← h]; decide)),
      List.count_eq_zero_of_not_mem (not_mem_gzipSegment _ _ (by decide) (by decide)),
      List.count_eq_zero_of_not_mem
        (not_mem_optFloatArg _ "--max_n" _ (by decide) ⟨'-', _, rfl, rfl⟩),
      List.count_eq_zero_of_not_mem
        (not_mem_errorRateSegment _ _ (by decide) ⟨'-', _, rfl, rfl⟩),
      List.count_eq_zero_of_not_mem
        (not_mem_optIntArg _ "--clip_R1" _ (by decide) ⟨'-', _, rfl, rfl⟩),
      count_adapterSegment _ _ (by decide)] <;>
    simp

/-- C3, witness: with `adapter_sequence = nextera` at a concrete
ParameterSet, `--nextera` occurs once and the other family tokens do not
occur. -/
theorem c3_adapter_family_witness :
    ((build pw).count "--nextera" = if pw.adapter_sequence.value = "--nextera" then 1 else 0) ∧
    ((build pw).count "--illumina" = if pw.adapter_sequence.value = "--illumina" then 1 else 0) :=
  ⟨c3_adapter_family pw (by decide) (by decide)
      (fun s hs => by simp [pw] at hs; subst hs; decide)
      (fun s hs => by simp [pw] at hs; subst hs; decide)
      (fun s hs => by simp [pw] at hs; subst hs; decide) "--nextera" (by decide),
    c3_adapter_family pw (by decide) (by decide)
      (fun s hs => by simp [pw] at hs; subst hs; decide)
      (fun s hs => by simp [pw] at hs; subst hs; decide)
      (fun s hs => by simp [pw] at hs; subst hs; decide) "--illumina" (by decide)⟩

/-- C4, counterexample: `max_n` present with the falsy value `0.0` emits no
`--max_n` flag — presence is decided by truthiness (`if max_n:`), not by
not-`None` as the claim states. -/
theorem c4_max_n_counterexample :
    "--max_n" ∉
      build { input_forward := "fwd.fq", input_reverse := "rev.fq",
              max_n := some (ratInt 0) } := by decide

/-- C4, amended: the builder emits `--max_n` followed by its rendered value
iff `max_n` is present and nonzero (truthiness); a present `0.0` emits
nothing (free-form string fields are assumed not to spell `--max_n`). -/
theorem c4_max_n_amended (p : ParameterSet)
    (hf : p.input_forward ≠ "--max_n") (hr : p.input_reverse ≠ "--max_n")
    (hb : ∀ s, p.base_out = some s → s ≠ "--max_n")
    (ha : ∀ s, p.adapter = some s → s ≠ "--max_n")
    (ha2 : ∀ s, p.adapter2 = some s → s ≠ "--max_n") :
    (∀ q, p.max_n = some q → q ≠ 0 →
      ∃ l1 l2, build p = l1 ++ ["--max_n", floatStr q] ++ l2) ∧
    ("--max_n" ∈ build p ↔ ∃ q, p.max_n = some q ∧ q ≠ 0) := by
  have fs : FlagShaped "--max_n" := ⟨'-', ['m', 'a', 'x', '_', 'n'], rfl, rfl⟩
  have hcnt : (build p).count "--max_n" = (optFloatArg "--max_n" p.max_n).count "--max_n" := by
    rw [count_build_restVar p "--max_n" fs (by decide)
        (fun h => hf h.symm) (fun h => hr h.symm)
        (fun s hs h => hb s hs h.symm) (fun s hs h => ha s hs h.symm)
        (fun s hs h => ha2 s hs h.symm),
      List.count_eq_zero_of_not_mem (not_mem_gzipSegment _ _ (by decide) (by decide)),
      List.count_eq_zero_of_not_mem
        (not_mem_adapterSegment _ _ (by decide) (by decide) (by decide) (by decide)),
      List.count_eq_zero_of_not_mem (not_mem_errorRateSegment _ _ (by decide) fs),
      List.count_eq_zero_of_not_mem (not_mem_optIntArg _ "--clip_R1" _ (by decide) fs)]
    omega
  constructor
  · intro q hq hqne
    refine ⟨headSegment p.input_forward p.input_reverse
        ++ optStrArg "--basename" p.base_out
        ++ gzipSegment p.gzip_output_files
        ++ boolArg "--retain_unpaired" p.retain_unpaired
        ++ qualityBlock p.quality p.base_quality_encoding p.length p.length_1 p.length_2
        ++ optIntArg "--max_length" p.max_length,
      boolArg "--trim-n" p.trim_n
        ++ adapterSegment p.adapter_sequence
        ++ errorRateSegment p.error_rate
        ++ stringencySegment p.stringency
        ++ optStrArg "--adapter" p.adapter
        ++ optStrArg "--adapter2" p.adapter2
        ++ optIntArg "--consider_already_trimmed" p.consider_already_trimmed
        ++ boolArg "--fastqc" p.fastqc
        ++ fastqcArgsSegment p.fastqc_args
        ++ boolArg "--no_report_file" (!p.report_file)
        ++ optIntArg "--hardtrim5" p.hardtrim5
        ++ optIntArg "--hardtrim3" p.hardtrim3
        ++ optIntArg "--clip_R1" p.clip_R1
        ++ optIntArg "--clip_R2" p.clip_R2
        ++ boolArg "--polyA" p.polyA
        ++ boolArg "--implicon" p.implicon
        ++ optIntArg "--three_prime_clip_R1" p.three_prime_clip_R1
        ++ optIntArg "--three_prime_clip_R2" p.three_prime_clip_R2, ?_⟩
    have hseg : optFloatArg "--max_n" p.max_n = ["--max_n", floatStr q] := by
      simp [optFloatArg, hq, hqne]
    rw [build, ← hseg]
    simp [List.append_assoc]
  · constructor
    · intro hmem
      have hpos : 0 < (optFloatArg "--max_n" p.max_n).count "--max_n" := by
        rw [← hcnt]
        exact List.count_pos_iff.mpr hmem
      cases hq : p.max_n with
      | none => rw [hq] at hpos; simp [optFloatArg] at hpos
      | some q =>
        rw [hq] at hpos
        by_cases h0 : q = 0
        · simp [optFloatArg, h0] at hpos
        · exact ⟨q, rfl, h0⟩
    · rintro ⟨q, hq, h0⟩
      have hone : (optFloatArg "--max_n" p.max_n).count "--max_n" = 1 := by
        have hne : "--max_n" ≠ floatStr q := (floatStr_ne_flag q "--max_n" fs).symm
        simp [optFloatArg, hq, h0, List.count_cons, hne]
      exact List.count_pos_iff.mp (by rw [hcnt, hone]; exact Nat.one_pos)

/-- C4, witness: the amended emission rule at a concrete ParameterSet with
`max_n = 2.0`. -/
theorem c4_max_n_amended_witness :
    (∀ q, pw.max_n = some q → q ≠ 0 →
      ∃ l1 l2, build pw = l1 ++ ["--max_n", floatStr q] ++ l2) ∧
    ("--max_n" ∈ build pw ↔ ∃ q, pw.max_n = some q ∧ q ≠ 0) :=
  c4_max_n_amended pw (by decide) (by decide)
    (fun s hs => by simp [pw] at hs; subst hs; decide)
    (fun s hs => by simp [pw] at hs; subst hs; decide)
    (fun s hs => by simp [pw] at hs; subst hs; decide)

/-- C5: a numeric optional set to exactly zero produces no flag — with
`clip_R1 = 0` no `--clip_R1` token appears, and with `error_rate = 0` no
`-e` token appears (emission tests truthiness, not not-`None`; free-form
string fields are assumed not to spell these tokens). -/
theorem c5_zero_suppressed (p : ParameterSet)
    (hf : p.input_forward ∉ (["--clip_R1", "-e"] : List String))
    (hr : p.input_reverse ∉ (["--clip_R1", "-e"] : List String))
    (hb : ∀ s, p.base_out = some s → s ∉ (["--clip_R1", "-e"] : List String))
    (ha : ∀ s, p.adapter = some s → s ∉ (["--clip_R1", "-e"] : List String))
    (ha2 : ∀ s, p.adapter2 = some s → s ∉ (["--clip_R1", "-e"] : List String)) :
    "--clip_R1" ∉ build { p with clip_R1 := some 0 } ∧
    "-e" ∉ build { p with error_rate := 0 } := by
  have fsc : FlagShaped "--clip_R1" := ⟨'-', ['c', 'l', 'i', 'p', '_', 'R', '1'], rfl, rfl⟩
  have fse : FlagShaped "-e" := ⟨'e', [], rfl, rfl⟩
  constructor
  · apply List.count_eq_zero.mp
    rw [count_build_restVar { p with clip_R1 := some 0 } "--clip_R1" fsc (by decide)
        (fun h => hf (by rw [← h]; decide)) (fun h => hr (by rw [← h]; decide))
        (fun s hs h => hb s hs (by rw [← h]; decide))
        (fun s hs h => ha s hs (by rw [← h]; decide))
        (fun s hs h => ha2 s hs (by rw [← h]; decide)),
      List.count_eq_zero_of_not_mem (not_mem_gzipSegment _ _ (by decide) (by decide)),
      List.count_eq_zero_of_not_mem
        (not_mem_optFloatArg _ "--max_n" _ (by decide) fsc),
      List.count_eq_zero_of_not_mem
        (not_mem_adapterSegment _ _ (by decide) (by decide) (by decide) (by decide)),
      List.count_eq_zero_of_not_mem (not_mem_errorRateSegment _ _ (by decide) fsc)]
    simp [optIntArg]
  · apply List.count_eq_zero.mp
    rw [count_build_restVar { p with error_rate := 0 } "-e" fse (by decide)
        (fun h => hf (by rw [← h]; decide)) (fun h => hr (by rw [← h]; decide))
        (fun s hs h => hb s hs (by rw [← h]; decide))
        (fun s hs h => ha s hs (by rw [← h]; decide))
        (fun s hs h => ha2 s hs (by rw [← h]; decide)),
      List.count_eq_zero_of_not_mem (not_mem_gzipSegment _ _ (by decide) (by decide)),
      List.count_eq_zero_of_not_mem
        (not_mem_optFloatArg _ "--max_n" _ (by decide) fse),
      List.count_eq_zero_of_not_mem
        (not_mem_adapterSegment _ _ (by decide) (by decide) (by decide) (by decide)),
      List.count_eq_zero_of_not_mem
        (not_mem_optIntArg _ "--clip_R1" _ (by decide) fse)]
    simp [errorRateSegment]

/-- C5, witness: zero-valued `clip_R1` and `error_rate` emit no flag at a
concrete ParameterSet. -/
theorem c5_zero_suppressed_witness :
    "--clip_R1" ∉ build { pw with clip_R1 := some 0 } ∧
    "-e" ∉ build { pw with error_rate := 0 } :=
  c5_zero_suppressed pw (by decide) (by decide)
    (fun s hs => by simp [pw] at hs; subst hs; decide)
    (fun s hs => by simp [pw] at hs; subst hs; decide)
    (fun s hs => by simp [pw] at hs; subst hs; decide)

end TrimGalore
